import Mathlib

namespace Civicsense

/-!
Shallow embedding of the civic-issue intake and tracking core of the
repository: the route handlers in server/routes/api.js together with the
Issue schema and the notification service in server/models.

Conventions of the embedding:
* A Mongoose document is a record of the schema paths; `Option` marks paths
  that may be absent (undefined or null in JS).
* The document store is a `List Issue` in insertion order; findOne and
  findOneAndUpdate act on the first matching document, as in MongoDB.
* Timestamps are integers (milliseconds since the epoch, as in a JS Date).
* Request-body string fields are `Option String`; the JS truthiness test
  `!x` on such a field is true exactly for an absent field or the empty
  string, embedded as `isBlank`.
* Coordinates are kept as the submitted strings: no claim depends on the
  numeric values produced by parseFloat, which is an excluded numeric
  primitive.
* Math.random is modeled by an explicit rational parameter `r` with
  0 ≤ r < 1 passed to the creation operation.
* sendNotification only logs; each operation returns the list of
  (contact, message) pairs it passed to the gateway.
-/

/-- An issue document, following IssueSchema in the models file.
The schema option `timestamps: true` adds the paths `createdAt` and
`updatedAt`, maintained by the store on creation and on every write. -/
structure Issue where
  issueId : String
  issueType : String
  description : String
  longitude : String
  latitude : String
  landmark : Option String
  imageUrl : Option String
  status : String
  citizenContact : String
  assignedDepartment : String
  assignedTo : Option String
  resolvedAt : Option Int
  createdAt : Int
  updatedAt : Int
deriving Repr, DecidableEq

/-- The analytics and listing code reads `issue.reportedAt`, but IssueSchema
defines no such path: with `timestamps: true` the creation timestamp path is
named `createdAt`. Under default strict mode, reading a non-schema path of a
document yields undefined, embedded here as `none`. -/
def Issue.reportedAt (_ : Issue) : Option Int := none

/-- The status enumeration of IssueSchema. -/
def statusEnum : List String := ["Pending", "Acknowledged", "In Progress", "Resolved"]

/-- The issueType enumeration of IssueSchema. -/
def issueTypeEnum : List String :=
  ["Pothole", "Garbage Overflow", "Streetlight Outage", "Water Leakage", "Other"]

/-- The distinct failure conditions of the route handlers.  `fileUpload` and
`missingFields` are the 400 responses of POST /api/report, `notFound` the 404
responses, and `validationFailed` / `duplicateKey` the save-time rejections
(schema enum validation, unique index on issueId) that the handlers surface
as generic 500 responses. -/
inductive ApiError where
  | fileUpload
  | missingFields
  | notFound
  | validationFailed
  | duplicateKey
deriving Repr, DecidableEq

/-- JS truthiness test `!x` on an optional request string: true for an absent
field and for the empty string. -/
def isBlank : Option String → Bool
  | none => true
  | some s => s == ""

/-- The department routing of POST /api/report: default General Services,
then the if/else chain on issueType. -/
def route (issueType : String) : String :=
  if issueType == "Garbage Overflow" then "Sanitation"
  else if issueType == "Pothole" then "Public Works"
  else if issueType == "Streetlight Outage" then "Electrical"
  else if issueType == "Water Leakage" then "Water Department"
  else "General Services"

/-- generateIssueId: Math.floor(100000 + Math.random() * 900000), with the
random draw `r` passed explicitly.  The argument of floor is nonnegative for
0 ≤ r, so taking `toNat` after the integer floor is exact. -/
def generateIssueIdNat (r : ℚ) : Nat := (⌊(100000 : ℚ) + r * 900000⌋).toNat

/-- generateIssueId: the 6-digit tracking id as the decimal string produced
by Number.toString. -/
def generateIssueId (r : ℚ) : String := Nat.repr (generateIssueIdNat r)

/-- The body of a POST /api/report request after multer has run: the form
string fields, the stored filename of an uploaded image if any, and whether
the upload middleware reported an error. -/
structure Report where
  issueType : Option String
  latitude : Option String
  longitude : Option String
  landmark : Option String
  description : Option String
  citizenContact : Option String
  file : Option String
  uploadErr : Bool
deriving Repr, DecidableEq

deriving instance DecidableEq for Except

/-- Result of one route handler: the store after the call, the response
(payload or error), and the (contact, message) pairs sent to the
notification gateway. -/
structure Outcome (α : Type) where
  db : List Issue
  resp : Except ApiError α
  sent : List (String × String)
deriving Repr, DecidableEq

/-- POST /api/report.  Mirrors the handler: multer error check, required
field truthiness check, department routing, id generation, document
construction (status defaults to Pending, resolvedAt absent), save
(schema enum validation then unique-index insert), confirmation
notification, 201 response carrying the issue id. -/
def postReport (now : Int) (r : ℚ) (db : List Issue) (req : Report) : Outcome String :=
  if req.uploadErr then ⟨db, .error .fileUpload, []⟩
  else if isBlank req.issueType || isBlank req.latitude || isBlank req.longitude
      || isBlank req.description || isBlank req.citizenContact then
    ⟨db, .error .missingFields, []⟩
  else
    let issueType := req.issueType.getD ""
    let newId := generateIssueId r
    let newIssue : Issue :=
      { issueId := newId
        issueType := issueType
        description := req.description.getD ""
        longitude := req.longitude.getD ""
        latitude := req.latitude.getD ""
        landmark := req.landmark
        imageUrl := req.file.map (fun f => "/uploads/" ++ f)
        status := "Pending"
        citizenContact := req.citizenContact.getD ""
        assignedDepartment := route issueType
        assignedTo := none
        resolvedAt := none
        createdAt := now
        updatedAt := now }
    if issueTypeEnum.contains issueType = false then
      ⟨db, .error .validationFailed, []⟩
    else if db.any (fun i => i.issueId == newId) then
      ⟨db, .error .duplicateKey, []⟩
    else
      ⟨db ++ [newIssue], .ok newId,
        [(newIssue.citizenContact,
          "Thank you! Your issue report (#" ++ newId ++ " - " ++ issueType
            ++ ") has been received. We will keep you updated on its progress.")]⟩

/-- First-match update: returns the store with the first document satisfying
`p` replaced by its image under `f`, together with the updated document
({ new: true }), or the unchanged store and `none` when nothing matches. -/
def findOneAndUpdate (p : Issue → Bool) (f : Issue → Issue) :
    List Issue → List Issue × Option Issue
  | [] => ([], none)
  | i :: rest =>
    if p i then (f i :: rest, some (f i))
    else
      let res := findOneAndUpdate p f rest
      (i :: res.1, res.2)

/-- The update document of POST /api/update_status: always sets status, and
additionally sets resolvedAt to the current time when the new status is the
string Resolved; the store bumps updatedAt on every write. -/
def applyStatusUpdate (now : Int) (status : String) (i : Issue) : Issue :=
  if status == "Resolved" then
    { i with status := status, resolvedAt := some now, updatedAt := now }
  else
    { i with status := status, updatedAt := now }

/-- POST /api/update_status.  Mirrors the handler: truthiness check on both
body fields, findOneAndUpdate by issueId with a $set of the update document
(update validators are off by default in Mongoose, so the status enum of the
schema is not checked here), 404 when no document matches, then a
status-change notification to the contact of the updated issue. -/
def postUpdateStatus (now : Int) (db : List Issue) (issueId status : Option String) :
    Outcome Issue :=
  if isBlank issueId || isBlank status then ⟨db, .error .missingFields, []⟩
  else
    let id := issueId.getD ""
    let st := status.getD ""
    let res := findOneAndUpdate (fun i => i.issueId == id) (applyStatusUpdate now st) db
    match res.2 with
    | none => ⟨db, .error .notFound, []⟩
    | some upd =>
      ⟨res.1, .ok upd,
        [(upd.citizenContact,
          "Update for issue #" ++ id ++ ": The status has been changed to \"" ++ st ++ "\".")]⟩

/-- POST /api/assign_issue.  Mirrors the handler: truthiness check on both
body fields, findOne by issueId (404 when absent), assignment of the
assignedTo reference, save (which bumps updatedAt).  The find-then-save pair
acts on the first matching document, embedded as one first-match update.
No notification is sent by this route. -/
def postAssignIssue (now : Int) (db : List Issue) (issueId userId : Option String) :
    Outcome Issue :=
  if isBlank issueId || isBlank userId then ⟨db, .error .missingFields, []⟩
  else
    let id := issueId.getD ""
    let uid := userId.getD ""
    let res := findOneAndUpdate (fun i => i.issueId == id)
      (fun i => { i with assignedTo := some uid, updatedAt := now }) db
    match res.2 with
    | none => ⟨db, .error .notFound, []⟩
    | some upd => ⟨res.1, .ok upd, []⟩

/-- GET /api/track_status/:issue_id.  findOne by issueId, 404 when absent. -/
def getTrackStatus (db : List Issue) (id : String) : Except ApiError Issue :=
  match db.find? (fun i => i.issueId == id) with
  | none => .error .notFound
  | some i => .ok i

/-- The average-resolution-time part of GET /api/analytics, in milliseconds:
the store query filters status Resolved with resolvedAt not null, then the
fold adds (resolvedAt - reportedAt) for the issues on which both reads are
Date instances, and divides by that count when it is positive. -/
def analyticsAvgMs (db : List Issue) : ℚ :=
  let resolvedIssues := db.filter (fun i => i.status == "Resolved" && i.resolvedAt.isSome)
  let valid := resolvedIssues.filter (fun i => i.resolvedAt.isSome && i.reportedAt.isSome)
  let total : Int := (valid.map (fun i => i.resolvedAt.getD 0 - i.reportedAt.getD 0)).sum
  if 0 < valid.length then (total : ℚ) / (valid.length : ℚ) else 0

/-- avgResolutionTimeHours of GET /api/analytics before the toFixed display
formatting: milliseconds divided by 1000 * 60 * 60. -/
def analyticsAvgHours (db : List Issue) : ℚ := analyticsAvgMs db / (1000 * 60 * 60)

/-- The average the specification defines, stated from its words to compare
with `analyticsAvgHours`: mean of (resolvedAt - createdAt) in hours over the
issues with status Resolved and a present resolvedAt (createdAt is always
present in the schema), and 0 when no issue qualifies. -/
def specAvgResolutionHours (db : List Issue) : ℚ :=
  let qualifying := db.filter (fun i => i.status == "Resolved" && i.resolvedAt.isSome)
  let totalMs : Int := (qualifying.map (fun i => i.resolvedAt.getD 0 - i.createdAt)).sum
  if 0 < qualifying.length then
    ((totalMs : ℚ) / (qualifying.length : ℚ)) / (1000 * 60 * 60)
  else 0

/-- One externally triggered mutating operation, tagged with the wall-clock
time at which it runs. -/
inductive Op where
  | create (now : Int) (rnd : ℚ) (req : Report)
  | setStatus (now : Int) (issueId status : Option String)
  | assignStaff (now : Int) (issueId userId : Option String)

/-- The store after one operation (unchanged when the operation fails). -/
def applyOp (db : List Issue) : Op → List Issue
  | .create now rnd req => (postReport now rnd db req).db
  | .setStatus now id st => (postUpdateStatus now db id st).db
  | .assignStaff now id uid => (postAssignIssue now db id uid).db

/-- The stores reachable from the empty store through the public mutating
operations. -/
inductive Reachable : List Issue → Prop where
  | nil : Reachable []
  | step (op : Op) {db : List Issue} : Reachable db → Reachable (applyOp db op)

/-- A string matching the regex of six decimal digits. -/
def isSixDigitString (s : String) : Prop :=
  s.length = 6 ∧ ∀ c ∈ s.data, c.isDigit

/-- Iterated application of operations, oldest first. -/
def applyOps : List Issue → List Op → List Issue
  | db, [] => db
  | db, op :: rest => applyOps (applyOp db op) rest

/-- Decimal digits of a natural number, least significant digit first; used
to reason about the decimal rendering of tracking ids. -/
def decDigits (n : Nat) : List Nat :=
  if _ : n < 10 then [n]
  else (n % 10) :: decDigits (n / 10)
termination_by n
decreasing_by exact Nat.div_lt_self (by omega) (by omega)

/-- Agreement of two issue documents on every schema path other than
status, resolvedAt and the store-maintained updatedAt. -/
def agreesExceptStatus (i j : Issue) : Prop :=
  j.issueId = i.issueId ∧ j.issueType = i.issueType ∧ j.description = i.description ∧
  j.longitude = i.longitude ∧ j.latitude = i.latitude ∧ j.landmark = i.landmark ∧
  j.imageUrl = i.imageUrl ∧ j.citizenContact = i.citizenContact ∧
  j.assignedDepartment = i.assignedDepartment ∧ j.assignedTo = i.assignedTo ∧
  j.createdAt = i.createdAt

/-- Agreement of two issue documents on every schema path other than
assignedTo and the store-maintained updatedAt. -/
def agreesExceptAssigned (i j : Issue) : Prop :=
  j.issueId = i.issueId ∧ j.issueType = i.issueType ∧ j.description = i.description ∧
  j.longitude = i.longitude ∧ j.latitude = i.latitude ∧ j.landmark = i.landmark ∧
  j.imageUrl = i.imageUrl ∧ j.status = i.status ∧ j.citizenContact = i.citizenContact ∧
  j.assignedDepartment = i.assignedDepartment ∧ j.resolvedAt = i.resolvedAt ∧
  j.createdAt = i.createdAt

/-- A pending issue on file, used as concrete input. -/
def pendingSample : Issue :=
  { issueId := "123456", issueType := "Pothole", description := "Large pothole",
    longitude := "77.59", latitude := "12.97", landmark := none, imageUrl := none,
    status := "Pending", citizenContact := "9876543210",
    assignedDepartment := "Public Works", assignedTo := none,
    resolvedAt := none, createdAt := 0, updatedAt := 0 }

/-- A resolved issue whose resolution took two hours, used as concrete
input for the analytics computation. -/
def resolvedSample : Issue :=
  { issueId := "654321", issueType := "Pothole", description := "Fixed pothole",
    longitude := "77.59", latitude := "12.97", landmark := none, imageUrl := none,
    status := "Resolved", citizenContact := "9876543210",
    assignedDepartment := "Public Works", assignedTo := none,
    resolvedAt := some 7200000, createdAt := 0, updatedAt := 7200000 }

/-- A fully filled-in report submission, used as concrete input. -/
def sampleReport : Report :=
  { issueType := some "Pothole", latitude := some "12.97", longitude := some "77.59",
    landmark := some "Near the school", description := some "Large pothole",
    citizenContact := some "9876543210", file := none, uploadErr := false }

/-- The same submission with a present but empty description field. -/
def emptyDescReport : Report :=
  { sampleReport with description := some "" }

/-- The same submission but with the upload middleware reporting an error. -/
def uploadErrReport : Report :=
  { sampleReport with uploadErr := true }

/-- An issue already on file whose tracking id coincides with the id the
generator draws for the random value 0. -/
def dupIssue : Issue :=
  { pendingSample with issueId := generateIssueId 0 }

/-- Create an issue, resolve it, then move it back to Pending. -/
def cexOps : List Op :=
  [.create 0 0 sampleReport,
   .setStatus 5 (some "100000") (some "Resolved"),
   .setStatus 9 (some "100000") (some "Pending")]

/-- The issue document created by `sampleReport` at time 0 with random
draw 0. -/
def createdIssue : Issue :=
  { issueId := "100000", issueType := "Pothole", description := "Large pothole",
    longitude := "77.59", latitude := "12.97", landmark := some "Near the school",
    imageUrl := none, status := "Pending", citizenContact := "9876543210",
    assignedDepartment := "Public Works", assignedTo := none,
    resolvedAt := none, createdAt := 0, updatedAt := 0 }

/-- `createdIssue` after being resolved at time 5. -/
def resolvedIssue100000 : Issue :=
  { createdIssue with status := "Resolved", resolvedAt := some 5, updatedAt := 5 }

/-- Create an issue and resolve it. -/
def resolvedOps : List Op :=
  [.create 0 0 sampleReport,
   .setStatus 5 (some "100000") (some "Resolved")]

/-- The issue document produced by `cexOps`: back to Pending with the
resolution timestamp still on file. -/
def cexIssue : Issue :=
  { issueId := "100000", issueType := "Pothole", description := "Large pothole",
    longitude := "77.59", latitude := "12.97", landmark := some "Near the school",
    imageUrl := none, status := "Pending", citizenContact := "9876543210",
    assignedDepartment := "Public Works", assignedTo := none,
    resolvedAt := some 5, createdAt := 0, updatedAt := 9 }

example : route "Pothole" = "Public Works" := by decide

example : generateIssueIdNat 0 = 100000 := by
  unfold generateIssueIdNat
  norm_num
  decide

example : generateIssueIdNat (1 / 2) = 550000 := by
  unfold generateIssueIdNat
  norm_num
  decide

/-! ### Helper lemmas -/

theorem generateIssueId_zero : generateIssueId 0 = "100000" := by
  have h : generateIssueIdNat 0 = 100000 := by
    unfold generateIssueIdNat
    norm_num
    decide
  unfold generateIssueId
  rw [h]
  rfl

theorem isBlank_iff (o : Option String) : isBlank o = true ↔ o = none ∨ o = some "" := by
  cases o with
  | none => simp [isBlank]
  | some s => simp [isBlank]

theorem isBlank_false_iff (o : Option String) :
    isBlank o = false ↔ o ≠ none ∧ o ≠ some "" := by
  rw [← Bool.not_eq_true, isBlank_iff]
  tauto

theorem decDigits_all_lt (n : Nat) : ∀ d ∈ decDigits n, d < 10 := by
  induction n using Nat.strong_induction_on with
  | _ n ih =>
    rw [decDigits]
    split
    · intro d hd
      simp only [List.mem_singleton] at hd
      omega
    · intro d hd
      rcases List.mem_cons.1 hd with h1 | h1
      · subst h1
        exact Nat.mod_lt _ (by omega)
      · exact ih (n / 10) (Nat.div_lt_self (by omega) (by omega)) d h1

theorem decDigits_length (k : Nat) :
    ∀ n, 10 ^ k ≤ n → n < 10 ^ (k + 1) → (decDigits n).length = k + 1 := by
  induction k with
  | zero =>
    intro n _ h2
    have hlt : n < 10 := by simpa using h2
    rw [decDigits, dif_pos hlt]
    rfl
  | succ k ih =>
    intro n h1 h2
    have hten : (10 : Nat) ^ 1 ≤ 10 ^ (k + 1) := Nat.pow_le_pow_right (by omega) (by omega)
    have h10 : ¬ n < 10 := by
      simp only [pow_one] at hten
      omega
    rw [decDigits, dif_neg h10]
    simp only [List.length_cons]
    have hdiv1 : 10 ^ k ≤ n / 10 := by
      rw [Nat.le_div_iff_mul_le (by omega)]
      calc 10 ^ k * 10 = 10 ^ (k + 1) := (pow_succ 10 k).symm
        _ ≤ n := h1
    have hdiv2 : n / 10 < 10 ^ (k + 1) := by
      rw [Nat.div_lt_iff_lt_mul (by omega)]
      calc n < 10 ^ (k + 2) := h2
        _ = 10 ^ (k + 1) * 10 := pow_succ 10 (k + 1)
    rw [ih (n / 10) hdiv1 hdiv2]

theorem toDigitsCore_eq_decDigits :
    ∀ (f n : Nat) (l : List Char), n < f →
      Nat.toDigitsCore 10 f n l = ((decDigits n).reverse.map Nat.digitChar) ++ l := by
  intro f
  induction f with
  | zero => intro n l h; omega
  | succ f ih =>
    intro n l h
    by_cases h0 : n / 10 = 0
    · have hn : n < 10 := by omega
      simp only [Nat.toDigitsCore, h0, if_pos]
      rw [decDigits, dif_pos hn, Nat.mod_eq_of_lt hn]
      simp
    · have hn : ¬ n < 10 := fun hc => h0 (Nat.div_eq_of_lt hc)
      simp only [Nat.toDigitsCore, h0, if_neg, ite_false]
      rw [ih (n / 10) (Nat.digitChar (n % 10) :: l)
        (by
          have hlt : n / 10 < n := Nat.div_lt_self (by omega) (by omega)
          omega)]
      conv_rhs => rw [decDigits, dif_neg hn]
      simp

theorem repr_eq_decDigits (n : Nat) :
    Nat.repr n = ((decDigits n).reverse.map Nat.digitChar).asString := by
  rw [Nat.repr, Nat.toDigits, toDigitsCore_eq_decDigits (n + 1) n [] (Nat.lt_succ_self n)]
  simp

theorem repr_length_eq (k n : Nat) (h1 : 10 ^ k ≤ n) (h2 : n < 10 ^ (k + 1)) :
    (Nat.repr n).length = k + 1 := by
  rw [repr_eq_decDigits]
  show ((decDigits n).reverse.map Nat.digitChar).length = k + 1
  rw [List.length_map, List.length_reverse, decDigits_length k n h1 h2]

theorem digitChar_isDigit : ∀ d : Nat, d < 10 → (Nat.digitChar d).isDigit = true := by
  decide

theorem repr_all_digits (n : Nat) : ∀ c ∈ (Nat.repr n).data, c.isDigit := by
  rw [repr_eq_decDigits]
  intro c hc
  have hc2 : c ∈ (decDigits n).reverse.map Nat.digitChar := hc
  rcases List.mem_map.1 hc2 with ⟨d, hd, rfl⟩
  exact digitChar_isDigit d (decDigits_all_lt n d (List.mem_reverse.1 hd))

theorem generateIssueIdNat_bounds (r : ℚ) (h0 : 0 ≤ r) (h1 : r < 1) :
    100000 ≤ generateIssueIdNat r ∧ generateIssueIdNat r ≤ 999999 := by
  unfold generateIssueIdNat
  have hf1 : (100000 : ℤ) ≤ ⌊(100000 : ℚ) + r * 900000⌋ := by
    rw [Int.le_floor]
    push_cast
    nlinarith
  have hf2 : ⌊(100000 : ℚ) + r * 900000⌋ < 1000000 := by
    rw [Int.floor_lt]
    push_cast
    nlinarith
  omega

theorem generateIssueId_sixDigits (r : ℚ) (h0 : 0 ≤ r) (h1 : r < 1) :
    isSixDigitString (generateIssueId r) := by
  obtain ⟨hL, hU⟩ := generateIssueIdNat_bounds r h0 h1
  refine ⟨?_, repr_all_digits _⟩
  exact repr_length_eq 5 (generateIssueIdNat r) (by norm_num; omega) (by norm_num; omega)

theorem findOneAndUpdate_eq_none (p : Issue → Bool) (f : Issue → Issue) :
    ∀ db : List Issue, (∀ i ∈ db, p i = false) → (findOneAndUpdate p f db).2 = none := by
  intro db
  induction db with
  | nil => intro _; rfl
  | cons i rest ih =>
    intro h
    have hi : p i = false := h i (List.mem_cons_self i rest)
    simp only [findOneAndUpdate, hi, Bool.false_eq_true, if_false]
    exact ih fun j hj => h j (List.mem_cons_of_mem i hj)

theorem findOneAndUpdate_fst_of_none (p : Issue → Bool) (f : Issue → Issue) :
    ∀ db : List Issue, (findOneAndUpdate p f db).2 = none →
      (findOneAndUpdate p f db).1 = db := by
  intro db
  induction db with
  | nil => intro _; rfl
  | cons i rest ih =>
    by_cases hp : p i
    · simp [findOneAndUpdate, hp]
    · simp only [findOneAndUpdate, hp, Bool.false_eq_true, if_false]
      intro h
      simpa using ih h

theorem findOneAndUpdate_some (p : Issue → Bool) (f : Issue → Issue) :
    ∀ (db : List Issue) (u : Issue), (findOneAndUpdate p f db).2 = some u →
      ∃ i, i ∈ db ∧ p i = true ∧ u = f i := by
  intro db
  induction db with
  | nil => intro u h; exact absurd h (by simp [findOneAndUpdate])
  | cons i rest ih =>
    intro u
    by_cases hp : p i
    · simp only [findOneAndUpdate, hp, if_true]
      intro h
      exact ⟨i, List.mem_cons_self i rest, hp, by simpa using h.symm⟩
    · simp only [findOneAndUpdate, hp, Bool.false_eq_true, if_false]
      intro h
      obtain ⟨j, hj, hpj, hu⟩ := ih u (by simpa using h)
      exact ⟨j, List.mem_cons_of_mem i hj, hpj, hu⟩

theorem findOneAndUpdate_mem (p : Issue → Bool) (f : Issue → Issue) :
    ∀ (db : List Issue) (j : Issue), j ∈ (findOneAndUpdate p f db).1 →
      j ∈ db ∨ ∃ i, i ∈ db ∧ p i = true ∧ j = f i := by
  intro db
  induction db with
  | nil => intro j h; exact absurd h (by simp [findOneAndUpdate])
  | cons i rest ih =>
    intro j
    by_cases hp : p i
    · simp only [findOneAndUpdate, hp, if_true]
      intro h
      rcases List.mem_cons.1 h with h1 | h1
      · exact Or.inr ⟨i, List.mem_cons_self i rest, hp, h1⟩
      · exact Or.inl (List.mem_cons_of_mem i h1)
    · simp only [findOneAndUpdate, hp, Bool.false_eq_true, if_false]
      intro h
      rcases List.mem_cons.1 h with h1 | h1
      · exact Or.inl (h1 ▸ List.mem_cons_self i rest)
      · rcases ih j h1 with h2 | ⟨i2, hi2, hpi2, hji2⟩
        · exact Or.inl (List.mem_cons_of_mem i h2)
        · exact Or.inr ⟨i2, List.mem_cons_of_mem i hi2, hpi2, hji2⟩

theorem findOneAndUpdate_map {α : Type} (p : Issue → Bool) (f : Issue → Issue)
    (g : Issue → α) (hg : ∀ i, g (f i) = g i) :
    ∀ db : List Issue, ((findOneAndUpdate p f db).1).map g = db.map g := by
  intro db
  induction db with
  | nil => rfl
  | cons i rest ih =>
    by_cases hp : p i
    · simp [findOneAndUpdate, hp, hg]
    · simp only [findOneAndUpdate, hp, Bool.false_eq_true, if_false, List.map_cons]
      rw [ih]

theorem applyStatusUpdate_status (now : Int) (st : String) (i : Issue) :
    (applyStatusUpdate now st i).status = st := by
  unfold applyStatusUpdate
  split <;> rfl

theorem applyStatusUpdate_issueId (now : Int) (st : String) (i : Issue) :
    (applyStatusUpdate now st i).issueId = i.issueId := by
  unfold applyStatusUpdate
  split <;> rfl

theorem applyStatusUpdate_createdAt (now : Int) (st : String) (i : Issue) :
    (applyStatusUpdate now st i).createdAt = i.createdAt := by
  unfold applyStatusUpdate
  split <;> rfl

theorem applyStatusUpdate_resolved (now : Int) (st : String) (i : Issue) (h : st = "Resolved") :
    (applyStatusUpdate now st i).resolvedAt = some now := by
  unfold applyStatusUpdate
  simp [h]

theorem applyStatusUpdate_not_resolved (now : Int) (st : String) (i : Issue)
    (h : st ≠ "Resolved") :
    (applyStatusUpdate now st i).resolvedAt = i.resolvedAt := by
  unfold applyStatusUpdate
  simp [h]

theorem applyStatusUpdate_frame (now : Int) (st : String) (i : Issue) :
    agreesExceptStatus i (applyStatusUpdate now st i) := by
  unfold applyStatusUpdate agreesExceptStatus
  split <;> simp

theorem postReport_db_cases (now : Int) (r : ℚ) (db : List Issue) (req : Report) :
    (postReport now r db req).db = db ∨
    ∃ nw : Issue, (postReport now r db req).db = db ++ [nw] ∧
      nw.status = "Pending" ∧ nw.resolvedAt = none ∧ nw.issueId = generateIssueId r ∧
      ∀ i ∈ db, ¬ i.issueId = generateIssueId r := by
  simp only [postReport]
  split
  · exact Or.inl rfl
  · split
    · exact Or.inl rfl
    · split
      · exact Or.inl rfl
      · split
        · exact Or.inl rfl
        · next h =>
          refine Or.inr ⟨_, rfl, rfl, rfl, rfl, ?_⟩
          intro i hi heq
          exact h (List.any_eq_true.2 ⟨i, hi, by simp [heq]⟩)

theorem postUpdateStatus_db_cases (now : Int) (db : List Issue) (id st : Option String) :
    (postUpdateStatus now db id st).db = db ∨
    (postUpdateStatus now db id st).db =
      (findOneAndUpdate (fun i => i.issueId == id.getD "")
        (applyStatusUpdate now (st.getD "")) db).1 := by
  simp only [postUpdateStatus]
  split
  · exact Or.inl rfl
  · split
    · exact Or.inl rfl
    · exact Or.inr rfl

theorem postAssignIssue_db_cases (now : Int) (db : List Issue) (id uid : Option String) :
    (postAssignIssue now db id uid).db = db ∨
    (postAssignIssue now db id uid).db =
      (findOneAndUpdate (fun i => i.issueId == id.getD "")
        (fun i => { i with assignedTo := some (uid.getD ""), updatedAt := now }) db).1 := by
  simp only [postAssignIssue]
  split
  · exact Or.inl rfl
  · split
    · exact Or.inl rfl
    · exact Or.inr rfl

theorem postUpdateStatus_mem (now : Int) (db : List Issue) (id st : Option String) :
    ∀ j ∈ (postUpdateStatus now db id st).db,
      j ∈ db ∨ ∃ i, i ∈ db ∧ j = applyStatusUpdate now (st.getD "") i := by
  intro j hj
  rcases postUpdateStatus_db_cases now db id st with h | h
  · exact Or.inl (h ▸ hj)
  · rw [h] at hj
    rcases findOneAndUpdate_mem _ _ db j hj with h1 | ⟨i, hi, _, hji⟩
    · exact Or.inl h1
    · exact Or.inr ⟨i, hi, hji⟩

theorem postAssignIssue_mem (now : Int) (db : List Issue) (id uid : Option String) :
    ∀ j ∈ (postAssignIssue now db id uid).db,
      j ∈ db ∨ ∃ i, i ∈ db ∧
        j = { i with assignedTo := some (uid.getD ""), updatedAt := now } := by
  intro j hj
  rcases postAssignIssue_db_cases now db id uid with h | h
  · exact Or.inl (h ▸ hj)
  · rw [h] at hj
    rcases findOneAndUpdate_mem _ _ db j hj with h1 | ⟨i, hi, _, hji⟩
    · exact Or.inl h1
    · exact Or.inr ⟨i, hi, hji⟩

theorem postUpdateStatus_map_issueId (now : Int) (db : List Issue) (id st : Option String) :
    ((postUpdateStatus now db id st).db).map Issue.issueId = db.map Issue.issueId := by
  rcases postUpdateStatus_db_cases now db id st with h | h
  · rw [h]
  · rw [h]
    exact findOneAndUpdate_map _ _ _ (fun i => applyStatusUpdate_issueId now (st.getD "") i) db

theorem postAssignIssue_map_issueId (now : Int) (db : List Issue) (id uid : Option String) :
    ((postAssignIssue now db id uid).db).map Issue.issueId = db.map Issue.issueId := by
  rcases postAssignIssue_db_cases now db id uid with h | h
  · rw [h]
  · rw [h]
    exact findOneAndUpdate_map (fun i => i.issueId == id.getD "")
      (fun i => { i with assignedTo := some (uid.getD ""), updatedAt := now })
      Issue.issueId (fun _ => rfl) db

theorem reachable_applyOps :
    ∀ (ops : List Op) (db : List Issue), Reachable db → Reachable (applyOps db ops) := by
  intro ops
  induction ops with
  | nil => intro db h; exact h
  | cons op rest ih => intro db h; exact ih (applyOp db op) (Reachable.step op h)

theorem postReport_success (now : Int) (r : ℚ) (db : List Issue) (req : Report)
    (hup : req.uploadErr = false)
    (hblank : (isBlank req.issueType || isBlank req.latitude || isBlank req.longitude ||
      isBlank req.description || isBlank req.citizenContact) = false)
    (henum : issueTypeEnum.contains (req.issueType.getD "") = true)
    (hany : (db.any fun i => i.issueId == generateIssueId r) = false) :
    (postReport now r db req).resp = .ok (generateIssueId r) ∧
    ∃ nw : Issue, (postReport now r db req).db = db ++ [nw] ∧ nw.status = "Pending" ∧
      nw.resolvedAt = none ∧ nw.issueId = generateIssueId r := by
  simp only [postReport, hup, Bool.false_eq_true, if_false, hblank, henum, hany,
    Bool.true_eq_false, ite_false]
  exact ⟨by trivial, _, rfl, rfl, rfl, rfl⟩

theorem getTrackStatus_append_fresh (db : List Issue) (nw : Issue)
    (hfresh : ∀ i ∈ db, i.issueId ≠ nw.issueId) :
    getTrackStatus (db ++ [nw]) nw.issueId = .ok nw := by
  unfold getTrackStatus
  rw [List.find?_append]
  have h1 : db.find? (fun i => i.issueId == nw.issueId) = none :=
    List.find?_eq_none.2 fun i hi => by simp [hfresh i hi]
  rw [h1, Option.none_or]
  simp

theorem applyOp_create_sample : applyOp [] (Op.create 0 0 sampleReport) = [createdIssue] := by
  have h : applyOp [] (Op.create 0 0 sampleReport)
      = [{ createdIssue with issueId := generateIssueId 0 }] := rfl
  rw [h, generateIssueId_zero]
  rfl

theorem applyOps_resolvedOps : applyOps [] resolvedOps = [resolvedIssue100000] := by
  show applyOps (applyOp [] (Op.create 0 0 sampleReport))
    [Op.setStatus 5 (some "100000") (some "Resolved")] = [resolvedIssue100000]
  rw [applyOp_create_sample]
  decide

theorem applyOps_cexOps : applyOps [] cexOps = [cexIssue] := by
  show applyOps (applyOp [] (Op.create 0 0 sampleReport))
    [Op.setStatus 5 (some "100000") (some "Resolved"),
     Op.setStatus 9 (some "100000") (some "Pending")] = [cexIssue]
  rw [applyOp_create_sample]
  decide

/-! ### Claims -/

/-- C4: the department routing is a total function on category strings with
no failure mode: Pothole maps to Public Works, Garbage Overflow to
Sanitation, Streetlight Outage to Electrical, Water Leakage to Water
Department, and every other input (including Other) maps to the default
department General Services. -/
theorem claim_C4_route_total :
    route "Pothole" = "Public Works" ∧
    route "Garbage Overflow" = "Sanitation" ∧
    route "Streetlight Outage" = "Electrical" ∧
    route "Water Leakage" = "Water Department" ∧
    ∀ c : String, c ≠ "Pothole" → c ≠ "Garbage Overflow" → c ≠ "Streetlight Outage" →
      c ≠ "Water Leakage" → route c = "General Services" := by
  refine ⟨by decide, by decide, by decide, by decide, ?_⟩
  intro c h1 h2 h3 h4
  unfold route
  simp [h1, h2, h3, h4]

/-- Witness for C4 at the concrete category Other. -/
theorem claim_C4_witness : route "Other" = "General Services" :=
  claim_C4_route_total.2.2.2.2 "Other" (by decide) (by decide) (by decide) (by decide)

/-- C3: the handler reads issue.reportedAt, a path the schema does not
define, so the valid count is always zero and the reported average is
always 0; on a store holding one Resolved issue whose resolution took two
hours the code answers 0 while the documented average is 2 hours. -/
theorem claim_C3_avg_resolution_bug :
    (∀ db : List Issue, analyticsAvgMs db = 0) ∧
    analyticsAvgHours [resolvedSample] = 0 ∧
    specAvgResolutionHours [resolvedSample] = 2 := by
  have hz : ∀ db : List Issue, analyticsAvgMs db = 0 := by
    intro db
    unfold analyticsAvgMs
    simp [Issue.reportedAt]
  refine ⟨hz, ?_, ?_⟩
  · unfold analyticsAvgHours
    rw [hz]
    norm_num
  · norm_num [specAvgResolutionHours, resolvedSample]

/-- C2 counterexample: on a store holding the pending issue 123456, a
status update to the string Bogus, which is outside the enumerated status
set, succeeds and persists Bogus instead of failing with a
ValidationError. -/
theorem claim_C2_counterexample :
    ¬ ("Bogus" ∈ statusEnum) ∧
    (postUpdateStatus 5 [pendingSample] (some "123456") (some "Bogus")).resp
      = .ok (applyStatusUpdate 5 "Bogus" pendingSample) ∧
    (postUpdateStatus 5 [pendingSample] (some "123456") (some "Bogus")).db
      = [applyStatusUpdate 5 "Bogus" pendingSample] ∧
    (applyStatusUpdate 5 "Bogus" pendingSample).status = "Bogus" := by
  decide

/-- C2 amended: with both body fields non-empty, the status update fails
with NotFound and changes no issue when no issue carries the tracking id;
otherwise it succeeds and persists the new status, whatever string it is:
the enumerated status set is not checked on the update path. -/
theorem claim_C2_amended (now : Int) (db : List Issue) (id st : String)
    (hid : id ≠ "") (hst : st ≠ "") :
    ((∀ i ∈ db, i.issueId ≠ id) →
      (postUpdateStatus now db (some id) (some st)).resp = .error .notFound ∧
      (postUpdateStatus now db (some id) (some st)).db = db) ∧
    (∀ u : Issue, (postUpdateStatus now db (some id) (some st)).resp = .ok u →
      u.status = st) := by
  have hblank : (isBlank (some id) || isBlank (some st)) = false := by
    simp [isBlank, hid, hst]
  constructor
  · intro hno
    have hnone : (findOneAndUpdate (fun i => i.issueId == id)
        (applyStatusUpdate now st) db).2 = none := by
      apply findOneAndUpdate_eq_none
      intro i hi
      simp [hno i hi]
    refine ⟨?_, ?_⟩ <;>
      simp [postUpdateStatus, hblank, Option.getD_some, hnone]
  · intro u hu
    rcases hres : (findOneAndUpdate (fun i => i.issueId == id)
        (applyStatusUpdate now st) db).2 with _ | v
    · simp [postUpdateStatus, hblank, Option.getD_some, hres] at hu
    · simp only [postUpdateStatus, hblank, Bool.false_eq_true, if_false,
        Option.getD_some, hres] at hu
      obtain ⟨i, _, _, hv⟩ := findOneAndUpdate_some _ _ db v hres
      have : v = u := by simpa using hu
      rw [← this, hv]
      exact applyStatusUpdate_status now st i

/-- Witness for C2 amended: NotFound on an empty store, and a successful
update persisting a status outside the enumeration. -/
theorem claim_C2_witness :
    (postUpdateStatus 0 ([] : List Issue) (some "999999") (some "In Progress")).resp
      = .error .notFound ∧
    (applyStatusUpdate 5 "Bogus" pendingSample).status = "Bogus" :=
  ⟨((claim_C2_amended 0 [] "999999" "In Progress" (by decide) (by decide)).1
      (by simp)).1,
   (claim_C2_amended 5 [pendingSample] "123456" "Bogus" (by decide) (by decide)).2
     (applyStatusUpdate 5 "Bogus" pendingSample) (by decide)⟩

/-- C8 counterexample: a submission with every required field present but
an empty description string is rejected with the missing-fields
ValidationError, so the failure is not equivalent to a field being
missing. -/
theorem claim_C8_counterexample :
    emptyDescReport.issueType ≠ none ∧ emptyDescReport.latitude ≠ none ∧
    emptyDescReport.longitude ≠ none ∧ emptyDescReport.description ≠ none ∧
    emptyDescReport.citizenContact ≠ none ∧
    (postReport 0 0 [] emptyDescReport).resp = .error .missingFields := by
  decide

/-- C8 amended: when the upload middleware succeeds, create fails with the
missing-fields ValidationError exactly when one of the required fields
category, latitude, longitude, description or contact is absent or is the
empty string. -/
theorem claim_C8_amended (now : Int) (r : ℚ) (db : List Issue) (req : Report)
    (hup : req.uploadErr = false) :
    (postReport now r db req).resp = .error .missingFields ↔
      (req.issueType = none ∨ req.issueType = some "" ∨
       req.latitude = none ∨ req.latitude = some "" ∨
       req.longitude = none ∨ req.longitude = some "" ∨
       req.description = none ∨ req.description = some "" ∨
       req.citizenContact = none ∨ req.citizenContact = some "") := by
  have hiff : (isBlank req.issueType || isBlank req.latitude || isBlank req.longitude
      || isBlank req.description || isBlank req.citizenContact) = true ↔
      (req.issueType = none ∨ req.issueType = some "" ∨
       req.latitude = none ∨ req.latitude = some "" ∨
       req.longitude = none ∨ req.longitude = some "" ∨
       req.description = none ∨ req.description = some "" ∨
       req.citizenContact = none ∨ req.citizenContact = some "") := by
    simp only [Bool.or_eq_true, isBlank_iff]
    tauto
  by_cases hb : (isBlank req.issueType || isBlank req.latitude || isBlank req.longitude
      || isBlank req.description || isBlank req.citizenContact) = true
  · constructor
    · intro _
      exact hiff.1 hb
    · intro _
      simp [postReport, hup, hb]
  · constructor
    · intro h
      exfalso
      simp only [postReport, hup, Bool.false_eq_true, if_false, hb] at h
      revert h
      split
      · intro h; exact absurd h (by simp)
      · split
        · intro h; exact absurd h (by simp)
        · intro h; exact absurd h (by simp)
    · intro hd
      exact absurd (hiff.2 hd) hb

/-- Witness for C8 amended at the empty-description submission. -/
theorem claim_C8_witness :
    (postReport 0 0 [] emptyDescReport).resp = .error .missingFields ↔
      (emptyDescReport.issueType = none ∨ emptyDescReport.issueType = some "" ∨
       emptyDescReport.latitude = none ∨ emptyDescReport.latitude = some "" ∨
       emptyDescReport.longitude = none ∨ emptyDescReport.longitude = some "" ∨
       emptyDescReport.description = none ∨ emptyDescReport.description = some "" ∨
       emptyDescReport.citizenContact = none ∨ emptyDescReport.citizenContact = some "") :=
  claim_C8_amended 0 0 [] emptyDescReport rfl

/-- C10: when create rejects a submission for a file-upload error or a
missing required field, the store is unchanged and no notification is
sent. -/
theorem claim_C10_reject_no_effects (now : Int) (r : ℚ) (db : List Issue) (req : Report) :
    (req.uploadErr = true →
      (postReport now r db req).db = db ∧ (postReport now r db req).sent = [] ∧
      (postReport now r db req).resp = .error .fileUpload) ∧
    (req.uploadErr = false →
      (isBlank req.issueType || isBlank req.latitude || isBlank req.longitude ||
        isBlank req.description || isBlank req.citizenContact) = true →
      (postReport now r db req).db = db ∧ (postReport now r db req).sent = [] ∧
      (postReport now r db req).resp = .error .missingFields) := by
  constructor
  · intro h
    simp [postReport, h]
  · intro h hb
    simp [postReport, h, hb]

/-- C1 counterexample: the store holding only `cexIssue` is reachable
(create, resolve, then set the status back to Pending), and there the issue
has a non-null resolvedAt with a status different from Resolved, so the
stated equivalence is not preserved by every operation. -/
theorem claim_C1_counterexample :
    Reachable [cexIssue] ∧ cexIssue.status ≠ "Resolved" ∧ cexIssue.resolvedAt ≠ none := by
  refine ⟨?_, by decide, by decide⟩
  have h := reachable_applyOps cexOps [] Reachable.nil
  rwa [applyOps_cexOps] at h

/-- C1 amended: on every store reachable through the public operations,
resolvedAt is non-null whenever status is Resolved; the converse direction
of the documented equivalence can be broken by a status update away from
Resolved, which leaves resolvedAt set. -/
theorem claim_C1_amended (db : List Issue) (h : Reachable db) :
    ∀ i ∈ db, i.status = "Resolved" → i.resolvedAt ≠ none := by
  induction h with
  | nil => intro i hi; exact absurd hi (List.not_mem_nil i)
  | step op hdb ih =>
    intro j hj hstat
    cases op with
    | create now r req =>
      simp only [applyOp] at hj
      rcases postReport_db_cases now r _ req with hc | ⟨nw, hc, hnw1, _, _, _⟩
      · exact ih j (by rwa [hc] at hj) hstat
      · rw [hc] at hj
        rcases List.mem_append.1 hj with h1 | h1
        · exact ih j h1 hstat
        · have hjn : j = nw := by simpa using h1
          rw [hjn, hnw1] at hstat
          exact absurd hstat (by decide)
    | setStatus now id st =>
      simp only [applyOp] at hj
      rcases postUpdateStatus_mem now _ id st j hj with h1 | ⟨i, hi, hji⟩
      · exact ih j h1 hstat
      · subst hji
        by_cases hres : st.getD "" = "Resolved"
        · rw [applyStatusUpdate_resolved now _ i hres]
          simp
        · rw [applyStatusUpdate_status] at hstat
          exact absurd hstat hres
    | assignStaff now id uid =>
      simp only [applyOp] at hj
      rcases postAssignIssue_mem now _ id uid j hj with h1 | ⟨i, hi, hji⟩
      · exact ih j h1 hstat
      · subst hji
        exact ih i hi hstat

/-- Witness for C1 amended on a reachable store holding one resolved
issue. -/
theorem claim_C1_witness : resolvedIssue100000.resolvedAt ≠ none := by
  have hreach : Reachable [resolvedIssue100000] := by
    have h := reachable_applyOps resolvedOps [] Reachable.nil
    rwa [applyOps_resolvedOps] at h
  exact claim_C1_amended [resolvedIssue100000] hreach resolvedIssue100000
    (by decide) (by decide)

/-- C5: a valid submission (upload ok, required fields filled, category in
the enumeration, generated id not already on file) is accepted: the
response carries the generated tracking id, a 6-digit numeric string whose
value lies in [100000, 999999], and tracking that id afterwards returns a
record with status Pending and resolvedAt absent. -/
theorem claim_C5_create_then_track (now : Int) (r : ℚ) (db : List Issue) (req : Report)
    (hr0 : 0 ≤ r) (hr1 : r < 1) (hup : req.uploadErr = false)
    (hblank : (isBlank req.issueType || isBlank req.latitude || isBlank req.longitude ||
      isBlank req.description || isBlank req.citizenContact) = false)
    (henum : issueTypeEnum.contains (req.issueType.getD "") = true)
    (hfresh : ∀ i ∈ db, i.issueId ≠ generateIssueId r) :
    (postReport now r db req).resp = .ok (generateIssueId r) ∧
    100000 ≤ generateIssueIdNat r ∧ generateIssueIdNat r ≤ 999999 ∧
    isSixDigitString (generateIssueId r) ∧
    ∃ issue : Issue,
      getTrackStatus (postReport now r db req).db (generateIssueId r) = .ok issue ∧
      issue.status = "Pending" ∧ issue.resolvedAt = none := by
  have hany : (db.any fun i => i.issueId == generateIssueId r) = false := by
    simp only [List.any_eq_false]
    intro i hi
    simp [hfresh i hi]
  obtain ⟨hresp, nw, hdb, hst, hres, hid⟩ := postReport_success now r db req hup hblank henum hany
  obtain ⟨hlo, hhi⟩ := generateIssueIdNat_bounds r hr0 hr1
  refine ⟨hresp, hlo, hhi, generateIssueId_sixDigits r hr0 hr1, nw, ?_, hst, hres⟩
  rw [hdb, ← hid]
  exact getTrackStatus_append_fresh db nw fun i hi => by rw [hid]; exact hfresh i hi

/-- Witness for C5 at the sample submission on an empty store. -/
theorem claim_C5_witness :
    (postReport 0 0 [] sampleReport).resp = .ok (generateIssueId 0) ∧
    100000 ≤ generateIssueIdNat 0 ∧ generateIssueIdNat 0 ≤ 999999 ∧
    isSixDigitString (generateIssueId 0) ∧
    ∃ issue : Issue,
      getTrackStatus (postReport 0 0 [] sampleReport).db (generateIssueId 0) = .ok issue ∧
      issue.status = "Pending" ∧ issue.resolvedAt = none :=
  claim_C5_create_then_track 0 0 [] sampleReport (le_refl 0) zero_lt_one rfl
    (by decide) (by decide) (by simp)

/-- C6: a successful status update to Resolved stores resolvedAt = now,
which is at least the createdAt of the updated record whenever the clock is
consistent with the store; a successful update to any other status leaves
resolvedAt absent when it was absent on the matching records. -/
theorem claim_C6_resolved_timestamps (now : Int) (db : List Issue) (id st : String)
    (u : Issue)
    (hclock : ∀ i ∈ db, i.createdAt ≤ now)
    (hok : (postUpdateStatus now db (some id) (some st)).resp = .ok u) :
    (st = "Resolved" → u.resolvedAt = some now ∧ u.createdAt ≤ now) ∧
    (st ≠ "Resolved" → (∀ i ∈ db, i.issueId = id → i.resolvedAt = none) →
      u.resolvedAt = none) := by
  have hedge : ∃ i, i ∈ db ∧ (i.issueId == id) = true ∧ u = applyStatusUpdate now st i := by
    by_cases hblank : (isBlank (some id) || isBlank (some st)) = true
    · simp [postUpdateStatus, hblank] at hok
    · have hb2 : (isBlank (some id) || isBlank (some st)) = false := by
        simpa using hblank
      rcases hres : (findOneAndUpdate (fun i => i.issueId == id)
          (applyStatusUpdate now st) db).2 with _ | v
      · simp [postUpdateStatus, hb2, Option.getD_some, hres] at hok
      · simp only [postUpdateStatus, hb2, Bool.false_eq_true, if_false,
          Option.getD_some, hres] at hok
        obtain ⟨i, hi, hpi, hv⟩ := findOneAndUpdate_some _ _ db v hres
        have huv : v = u := by simpa using hok
        exact ⟨i, hi, hpi, by rw [← huv, hv]⟩
  obtain ⟨i, hi, hpi, hu⟩ := hedge
  constructor
  · intro hrv
    subst hu
    refine ⟨applyStatusUpdate_resolved now st i hrv, ?_⟩
    rw [applyStatusUpdate_createdAt]
    exact hclock i hi
  · intro hrv hnone
    subst hu
    rw [applyStatusUpdate_not_resolved now st i hrv]
    exact hnone i hi (by simpa using hpi)

/-- Witness for C6: resolving the pending sample at time 5 and
acknowledging it at time 7. -/
theorem claim_C6_witness :
    ((applyStatusUpdate 5 "Resolved" pendingSample).resolvedAt = some 5 ∧
      (applyStatusUpdate 5 "Resolved" pendingSample).createdAt ≤ 5) ∧
    (applyStatusUpdate 7 "Acknowledged" pendingSample).resolvedAt = none :=
  ⟨(claim_C6_resolved_timestamps 5 [pendingSample] "123456" "Resolved"
      (applyStatusUpdate 5 "Resolved" pendingSample) (by decide) (by decide)).1 rfl,
   (claim_C6_resolved_timestamps 7 [pendingSample] "123456" "Acknowledged"
      (applyStatusUpdate 7 "Acknowledged" pendingSample) (by decide) (by decide)).2
     (by decide) (by decide)⟩

/-- C7: an insert whose tracking id is already on file is rejected by the
unique index with a DuplicateKey condition and leaves the store unchanged,
and every store reachable through the public operations carries pairwise
distinct tracking ids. -/
theorem claim_C7_unique_tracking_ids :
    (∀ (now : Int) (r : ℚ) (db : List Issue) (req : Report),
      req.uploadErr = false →
      (isBlank req.issueType || isBlank req.latitude || isBlank req.longitude ||
        isBlank req.description || isBlank req.citizenContact) = false →
      issueTypeEnum.contains (req.issueType.getD "") = true →
      (∃ i ∈ db, i.issueId = generateIssueId r) →
      (postReport now r db req).resp = .error .duplicateKey ∧
      (postReport now r db req).db = db) ∧
    (∀ db : List Issue, Reachable db → (db.map Issue.issueId).Nodup) := by
  constructor
  · rintro now r db req hup hblank henum ⟨i, hi, hdup⟩
    have hany : (db.any fun j => j.issueId == generateIssueId r) = true :=
      List.any_eq_true.2 ⟨i, hi, by simp [hdup]⟩
    have hmem : req.issueType.getD "" ∈ issueTypeEnum := by simpa using henum
    simp [postReport, hup, hblank, henum, hany, hmem]
  · intro db h
    induction h with
    | nil => simp
    | step op hdb ih =>
      cases op with
      | create now r req =>
        simp only [applyOp]
        rcases postReport_db_cases now r _ req with hc | ⟨nw, hc, _, _, hid, hfr⟩
        · rw [hc]; exact ih
        · rw [hc, List.map_append]
          refine List.Nodup.append ih (List.nodup_singleton _) ?_
          intro x hx hx2
          simp only [List.map_cons, List.map_nil, List.mem_singleton] at hx2
          rcases List.mem_map.1 hx with ⟨j, hj, hxj⟩
          exact hfr j hj (by rw [hxj, hx2]; exact hid)
      | setStatus now id st =>
        simp only [applyOp]
        rw [postUpdateStatus_map_issueId]
        exact ih
      | assignStaff now id uid =>
        simp only [applyOp]
        rw [postAssignIssue_map_issueId]
        exact ih

/-- Witness for C7: a duplicate insert against a store already holding the
drawn id is rejected, and the empty store has distinct ids. -/
theorem claim_C7_witness :
    ((postReport 0 0 [dupIssue] sampleReport).resp = .error .duplicateKey ∧
      (postReport 0 0 [dupIssue] sampleReport).db = [dupIssue]) ∧
    (([] : List Issue).map Issue.issueId).Nodup :=
  ⟨claim_C7_unique_tracking_ids.1 0 0 [dupIssue] sampleReport rfl (by decide) (by decide)
      ⟨dupIssue, by simp, rfl⟩,
   claim_C7_unique_tracking_ids.2 [] Reachable.nil⟩

/-- C9: the tracking id is immutable and each mutating route writes only
its own fields: every document in the store after a status update agrees
with a prior document on every path except status, resolvedAt and the
store-maintained updatedAt (and keeps resolvedAt when the new status is
not Resolved), and every document after an assignment agrees with a prior
document on every path except assignedTo and updatedAt. -/
theorem claim_C9_immutable_frame (now : Int) (db : List Issue) (id st uid : Option String) :
    (∀ j ∈ (postUpdateStatus now db id st).db, ∃ i ∈ db, agreesExceptStatus i j ∧
      (st.getD "" ≠ "Resolved" → j.resolvedAt = i.resolvedAt)) ∧
    (∀ j ∈ (postAssignIssue now db id uid).db, ∃ i ∈ db, agreesExceptAssigned i j) := by
  constructor
  · intro j hj
    rcases postUpdateStatus_mem now db id st j hj with h1 | ⟨i, hi, hji⟩
    · refine ⟨j, h1, ?_, fun _ => rfl⟩
      simp [agreesExceptStatus]
    · subst hji
      exact ⟨i, hi, applyStatusUpdate_frame now _ i,
        fun h => applyStatusUpdate_not_resolved now _ i h⟩
  · intro j hj
    rcases postAssignIssue_mem now db id uid j hj with h1 | ⟨i, hi, hji⟩
    · refine ⟨j, h1, ?_⟩
      simp [agreesExceptAssigned]
    · subst hji
      refine ⟨i, hi, ?_⟩
      simp [agreesExceptAssigned]

/-- Witness for C9 on the pending sample issue. -/
theorem claim_C9_witness :
    agreesExceptStatus pendingSample (applyStatusUpdate 5 "Acknowledged" pendingSample) ∧
    agreesExceptAssigned pendingSample
      { pendingSample with assignedTo := some "u1", updatedAt := 5 } := by
  constructor
  · obtain ⟨i, hi, hag, _⟩ := (claim_C9_immutable_frame 5 [pendingSample] (some "123456")
      (some "Acknowledged") (some "u1")).1
      (applyStatusUpdate 5 "Acknowledged" pendingSample) (by decide)
    have he : i = pendingSample := by simpa using hi
    rwa [he] at hag
  · obtain ⟨i, hi, hag⟩ := (claim_C9_immutable_frame 5 [pendingSample] (some "123456")
      (some "Acknowledged") (some "u1")).2
      { pendingSample with assignedTo := some "u1", updatedAt := 5 } (by decide)
    have he : i = pendingSample := by simpa using hi
    rwa [he] at hag

/-- Witness for C10 at a failed upload and at an empty description. -/
theorem claim_C10_witness :
    ((postReport 0 0 [] uploadErrReport).db = [] ∧
      (postReport 0 0 [] uploadErrReport).sent = [] ∧
      (postReport 0 0 [] uploadErrReport).resp = .error .fileUpload) ∧
    ((postReport 0 0 [] emptyDescReport).db = [] ∧
      (postReport 0 0 [] emptyDescReport).sent = [] ∧
      (postReport 0 0 [] emptyDescReport).resp = .error .missingFields) :=
  ⟨(claim_C10_reject_no_effects 0 0 [] uploadErrReport).1 rfl,
   (claim_C10_reject_no_effects 0 0 [] emptyDescReport).2 rfl (by decide)⟩

end Civicsense
